import Mathlib

/-!
Shallow Lean embedding of `src/buffon_montecarlo.py` (Buffon's needle
Monte Carlo simulation).  Python floats are modelled as real numbers;
the pseudo-random draws of `random.Random` are modelled as explicit
arguments carrying the interval bounds of `rng.uniform` as hypotheses.
-/

namespace Buffon

/-- Python's `y % t` on floats for `t ≠ 0`: `y - t * floor (y / t)`. -/
noncomputable def pymod (y t : ℝ) : ℝ := y - t * ⌊y / t⌋

/-- The `Needle` dataclass (source lines 24-29).  The derived `crosses`
field is the proposition computed at source lines 41-42. -/
structure Needle where
  x : ℝ
  y : ℝ
  theta : ℝ
  crosses : Prop

/-- `drop_one_needle` (source lines 32-43), with the three
`rng.uniform` draws made explicit arguments `ux uy utheta`
(their ranges are hypotheses of the theorems below):
`d_to_line = min (y % t) (t - y % t)` and
`crosses = (L/2) * sin theta >= d_to_line`. -/
def drop_one_needle (L t : ℝ) (xlim ylim : ℝ × ℝ) (ux uy utheta : ℝ) : Needle :=
  { x := ux
    y := uy
    theta := utheta
    crosses := (L / 2) * Real.sin utheta ≥ min (pymod uy t) (t - pymod uy t) }

/-- `estimate_pi` (source lines 45-48).  Python's `float("inf")` on the
`crosses == 0` branch is modelled as `⊤ : EReal`; the other branch is the
real value `(2 * L * total) / (crosses * t)` coerced into `EReal`. -/
noncomputable def estimate_pi (crosses total : ℕ) (L t : ℝ) : EReal :=
  if crosses = 0 then ⊤
  else ((2 * L * total) / (crosses * t) : ℝ)

/-- The mutable accumulator `state = {"i": 0, "crosses": 0}` of
`run_simulation` (source line 80). -/
structure SimState where
  i : ℕ
  crosses : ℕ
deriving DecidableEq, Repr

/-- Initial state of a run (source line 80). -/
def initState : SimState := { i := 0, crosses := 0 }

/-- One step of the per-frame `update` closure (source lines 87-96):
`state["i"] += 1` and, when the dropped needle crosses,
`state["crosses"] += 1`.  The crossing outcome of the needle drawn in
this frame is the argument `c`. -/
def update (s : SimState) (c : Bool) : SimState :=
  { i := s.i + 1, crosses := s.crosses + (if c then 1 else 0) }

/-- The driver loop: state after `n` frames of `update`, the crossing
outcome of frame `k` being `outcomes k` (source lines 98-106 run the
`update` closure for `frames = N` frames starting from `initState`). -/
def runTrials (outcomes : ℕ → Bool) : ℕ → SimState
  | 0 => initState
  | n + 1 => update (runTrials outcomes n) (outcomes n)

/-- `run_simulation` (source lines 70-108): raises
`ValueError("Requires L ≤ t")` when `L > t` before any sampling, else
runs `N` frames of `update` and ends in the resulting state.  The
crossing outcomes of the successive needle drops are abstracted as
`outcomes`; the comparison `L > t` on floats is carried by the
decidability instance. -/
def run_simulation (N : ℕ) (L t : ℝ) [Decidable (L > t)]
    (outcomes : ℕ → Bool) : Except String SimState :=
  if L > t then Except.error "Requires L <= t"
  else Except.ok (runTrials outcomes N)

/-- Digits-to-number accumulator for `pyIntParse`. -/
def digitsVal (cs : List Char) : ℕ :=
  cs.foldl (fun acc c => 10 * acc + (c.toNat - '0'.toNat)) 0

/-- The ASCII characters Python's `str.strip()` and `int()` treat as
whitespace: tab (9), newline (10), vertical tab (11), form feed (12),
carriage return (13), the separators 28-31, and space (32). -/
def pyWhitespace (c : Char) : Bool :=
  c.toNat = 9 || c.toNat = 10 || c.toNat = 11 || c.toNat = 12 || c.toNat = 13 ||
  c.toNat = 28 || c.toNat = 29 || c.toNat = 30 || c.toNat = 31 || c.toNat = 32

/-- Python's `str.strip()` on a character list: drop leading and
trailing whitespace. -/
def pyStrip (cs : List Char) : List Char :=
  ((cs.dropWhile pyWhitespace).reverse.dropWhile pyWhitespace).reverse

/-- Continuation of Python's digit-run grammar after its first digit:
further digits, with a single underscore separator allowed only
between two digits (`int("1_0") = 10`, while `"1_"`, `"_1"` and
`"1__0"` raise). -/
def digitsTail : List Char → Bool
  | [] => true
  | '_' :: c :: rest => c.isDigit && digitsTail rest
  | c :: rest => c.isDigit && digitsTail rest

/-- A nonempty ASCII digit run with single underscore separators
between digits: the digit part of Python's `int()` grammar. -/
def digitsPart : List Char → Bool
  | [] => false
  | c :: rest => c.isDigit && digitsTail rest

/-- `int(s.strip())` as applied at source line 116: after stripping,
parsing succeeds on an optional sign followed by a nonempty digit run
(single underscore separators between digits allowed) and fails
(Python raises `ValueError`) otherwise.  Faithful to CPython on ASCII
strings; non-ASCII decimal digits, which CPython's `int()` also
accepts, are outside the model, so theorems about failing parses carry
an ASCII hypothesis. -/
def pyIntParse (s : String) : Option ℤ :=
  match pyStrip s.data with
  | [] => none
  | '+' :: rest =>
      if digitsPart rest then some (digitsVal (rest.filter (fun c => c ≠ '_')))
      else none
  | '-' :: rest =>
      if digitsPart rest then some (-(digitsVal (rest.filter (fun c => c ≠ '_')) : ℤ))
      else none
  | cs =>
      if digitsPart cs then some (digitsVal (cs.filter (fun c => c ≠ '_')))
      else none

/-- The string consists of ASCII characters only; on this fragment
`pyIntParse` agrees exactly with CPython's `int()`. -/
def isAsciiStr (s : String) : Bool :=
  s.data.all (fun c => c.toNat ≤ 127)

/-- The `__main__` input handling (source lines 115-119):
`N = int(input(...).strip())`; on any parse exception, `N = 300` and a
diagnostic is printed.  Returns the chosen `N` and whether the
diagnostic/default path was taken. -/
def read_N (input : String) : ℤ × Bool :=
  match pyIntParse input with
  | some n => (n, false)
  | none => (300, true)

/-! ### Basic lemmas about `pymod` -/

theorem pymod_eq_fract (y t : ℝ) (ht : t ≠ 0) :
    pymod y t = t * Int.fract (y / t) := by
  unfold pymod Int.fract
  field_simp

theorem pymod_nonneg (y t : ℝ) (ht : 0 < t) : 0 ≤ pymod y t := by
  rw [pymod_eq_fract y t (ne_of_gt ht)]
  exact mul_nonneg ht.le (Int.fract_nonneg _)

theorem pymod_lt (y t : ℝ) (ht : 0 < t) : pymod y t < t := by
  rw [pymod_eq_fract y t (ne_of_gt ht)]
  calc t * Int.fract (y / t) < t * 1 :=
        (mul_lt_mul_left ht).2 (Int.fract_lt_one _)
    _ = t := mul_one t

theorem pymod_zero_left (t : ℝ) : pymod 0 t = 0 := by
  simp [pymod]

/-- The needle segment drawn by `draw_needle` (source lines 61-64):
`dx = (L/2) * cos theta`, `dy = (L/2) * sin theta`, endpoints
`(x - dx, y - dy)` and `(x + dx, y + dy)`. -/
noncomputable def draw_needle_segment (nd : Needle) (L : ℝ) : (ℝ × ℝ) × (ℝ × ℝ) :=
  ((nd.x - (L / 2) * Real.cos nd.theta, nd.y - (L / 2) * Real.sin nd.theta),
   (nd.x + (L / 2) * Real.cos nd.theta, nd.y + (L / 2) * Real.sin nd.theta))

/-- A crossing-outcome sequence where no needle ever crosses; used to
instantiate theorems at concrete inputs. -/
def allFalse : ℕ → Bool := fun _ => false

/-! ### Claim theorems -/

/-- C1: for every needle length `L`, spacing `t` with `0 < L ≤ t`, and
every center `y` and orientation `theta`, the sampler's crossing flag
holds iff `(L/2) * sin theta ≥ min (y mod t) (t - y mod t)`; the `≥`
makes the boundary equality case count as a crossing. -/
theorem crosses_iff_projection_reaches_distance (L t : ℝ) (xlim ylim : ℝ × ℝ)
    (ux y theta : ℝ) (hL : 0 < L) (hLt : L ≤ t) :
    (drop_one_needle L t xlim ylim ux y theta).crosses ↔
      (L / 2) * Real.sin theta ≥ min (pymod y t) (t - pymod y t) :=
  Iff.rfl

theorem crosses_iff_projection_reaches_distance_witness :
    0 < (1 : ℝ) ∧ (1 : ℝ) ≤ 1 ∧
    ((drop_one_needle 1 1 (-3, 3) (-3, 3) 0 0 0).crosses ↔
      ((1 : ℝ) / 2) * Real.sin 0 ≥ min (pymod 0 1) (1 - pymod 0 1)) :=
  ⟨by norm_num, by norm_num,
    crosses_iff_projection_reaches_distance 1 1 (-3, 3) (-3, 3) 0 0 0
      (by norm_num) (by norm_num)⟩

/-- C2: for every `crossings > 0`, `trials`, `L`, and `t > 0`, the
estimator returns exactly `(2 * L * trials) / (crossings * t)`. -/
theorem estimate_pi_pos_crossings (crosses total : ℕ) (L t : ℝ)
    (hc : 0 < crosses) (ht : 0 < t) :
    estimate_pi crosses total L t =
      (((2 * L * (total : ℝ)) / ((crosses : ℝ) * t) : ℝ) : EReal) := by
  unfold estimate_pi
  rw [if_neg hc.ne']

theorem estimate_pi_pos_crossings_witness :
    0 < 1 ∧ 0 < (1 : ℝ) ∧
    estimate_pi 1 1 1 1 =
      (((2 * 1 * ((1 : ℕ) : ℝ)) / (((1 : ℕ) : ℝ) * 1) : ℝ) : EReal) :=
  ⟨by norm_num, by norm_num, estimate_pi_pos_crossings 1 1 1 1 (by norm_num) (by norm_num)⟩

/-- C3: for every `trials`, `L`, `t`, when `crossings = 0` the estimator
returns the infinite sentinel (`float("inf")`, modelled as `⊤ : EReal`)
and, being a total function, never raises an arithmetic fault; this
includes `trials = 0`. -/
theorem estimate_pi_zero_crossings (total : ℕ) (L t : ℝ) :
    estimate_pi 0 total L t = ⊤ := by
  unfold estimate_pi
  rw [if_pos rfl]

/-- C4: for every `L > t`, the driver fails immediately with the
configuration error, independently of the crossing outcomes: no trial
state is produced. -/
theorem run_simulation_config_error (N : ℕ) (L t : ℝ) [Decidable (L > t)]
    (outcomes : ℕ → Bool) (h : L > t) :
    run_simulation N L t outcomes = Except.error "Requires L <= t" := by
  unfold run_simulation
  rw [if_pos h]

theorem run_simulation_config_error_witness :
    (2 : ℝ) > 1 ∧
    run_simulation 5 2 1 allFalse = Except.error "Requires L <= t" :=
  ⟨by norm_num, run_simulation_config_error 5 2 1 allFalse (by norm_num)⟩

/-- Helper for C5: crossings never exceed completed trials. -/
theorem crosses_le_trials (outcomes : ℕ → Bool) :
    ∀ n, (runTrials outcomes n).crosses ≤ (runTrials outcomes n).i := by
  intro n
  induction n with
  | zero => exact Nat.le_refl 0
  | succ n ih =>
      show (update (runTrials outcomes n) (outcomes n)).crosses ≤
        (update (runTrials outcomes n) (outcomes n)).i
      unfold update
      cases outcomes n <;> simp <;> omega

/-- C5: the simulation state satisfies `crossings ≤ trials_completed`
at every point of a run; each per-trial step increases
`trials_completed` by exactly 1 and `crossings` by 0 or 1 (so both
counters are non-decreasing), and the state at the start of a run is
the reset state `{i := 0, crosses := 0}`. -/
theorem sim_state_invariant (outcomes : ℕ → Bool) (n : ℕ) :
    (runTrials outcomes n).crosses ≤ (runTrials outcomes n).i ∧
    (runTrials outcomes (n + 1)).i = (runTrials outcomes n).i + 1 ∧
    ((runTrials outcomes (n + 1)).crosses = (runTrials outcomes n).crosses ∨
      (runTrials outcomes (n + 1)).crosses = (runTrials outcomes n).crosses + 1) ∧
    (runTrials outcomes n).i ≤ (runTrials outcomes (n + 1)).i ∧
    (runTrials outcomes n).crosses ≤ (runTrials outcomes (n + 1)).crosses ∧
    runTrials outcomes 0 = initState := by
  refine ⟨crosses_le_trials outcomes n, ?_, ?_, ?_, ?_, rfl⟩
  · show (update (runTrials outcomes n) (outcomes n)).i = (runTrials outcomes n).i + 1
    rfl
  · show (update (runTrials outcomes n) (outcomes n)).crosses = _ ∨
      (update (runTrials outcomes n) (outcomes n)).crosses = _ + 1
    unfold update
    cases outcomes n
    · left; simp
    · right; simp
  · show (runTrials outcomes n).i ≤ (update (runTrials outcomes n) (outcomes n)).i
    unfold update
    exact Nat.le_succ _
  · show (runTrials outcomes n).crosses ≤
      (update (runTrials outcomes n) (outcomes n)).crosses
    unfold update
    exact Nat.le_add_right _ _

/-- C6 counterexample: at `theta = 0` with valid `L = t = 1` and center
`y = 0` (exactly on a line), the crossing flag is true — the `≥`
comparison makes `0 ≥ min 0 1 = 0` hold — refuting "theta = 0 never
crosses" for every center. -/
theorem theta_zero_crossing_counterexample :
    0 < (1 : ℝ) ∧ (1 : ℝ) ≤ 1 ∧
    (drop_one_needle 1 1 (-3, 3) (-3, 3) 0 0 0).crosses := by
  refine ⟨by norm_num, by norm_num, ?_⟩
  show (1 / 2 : ℝ) * Real.sin 0 ≥ min (pymod 0 1) (1 - pymod 0 1)
  rw [Real.sin_zero, pymod_zero_left]
  norm_num

/-- C6 amended: for `theta = 0` and every valid `0 < L ≤ t`, the
crossing flag holds iff the center sits exactly on a line
(`y mod t = 0`); in particular it is false for every center strictly
between two lines. -/
theorem theta_zero_crosses_iff_on_line (L t y : ℝ) (xlim ylim : ℝ × ℝ)
    (ux : ℝ) (hL : 0 < L) (hLt : L ≤ t) :
    (drop_one_needle L t xlim ylim ux y 0).crosses ↔ pymod y t = 0 := by
  have ht : 0 < t := lt_of_lt_of_le hL hLt
  show (L / 2) * Real.sin 0 ≥ min (pymod y t) (t - pymod y t) ↔ pymod y t = 0
  rw [Real.sin_zero, mul_zero]
  constructor
  · intro h
    have h0 := pymod_nonneg y t ht
    have h1 := pymod_lt y t ht
    rcases min_le_iff.mp h with h' | h' <;> linarith
  · intro h
    rw [h, sub_zero]
    exact le_of_eq (min_eq_left ht.le)

theorem theta_zero_crosses_iff_on_line_witness :
    0 < (1 : ℝ) ∧ (1 : ℝ) ≤ 1 ∧
    ((drop_one_needle 1 1 (-3, 3) (-3, 3) 0 0 0).crosses ↔ pymod 0 1 = 0) :=
  ⟨by norm_num, by norm_num,
    theta_zero_crosses_iff_on_line 1 1 0 (-3, 3) (-3, 3) 0 (by norm_num) (by norm_num)⟩

/-- C7 counterexample: at `theta = π/2`, `L = t = 1`, center `y = 1/4`
(not on a line: `y mod t = 1/4 ≠ 0`), the needle crosses anyway, since
`(1/2) * sin (π/2) = 1/2 ≥ min (1/4) (3/4) = 1/4` — refuting "crosses
iff the center sits exactly on a line". -/
theorem pi_div_two_crossing_counterexample :
    (drop_one_needle 1 1 (-3, 3) (-3, 3) 0 (1 / 4) (Real.pi / 2)).crosses ∧
    pymod (1 / 4) 1 ≠ 0 := by
  have hmod : pymod (1 / 4 : ℝ) 1 = 1 / 4 := by
    unfold pymod
    norm_num
  constructor
  · show (1 / 2 : ℝ) * Real.sin (Real.pi / 2) ≥
      min (pymod (1 / 4) 1) (1 - pymod (1 / 4) 1)
    rw [Real.sin_pi_div_two, hmod]
    norm_num
  · rw [hmod]
    norm_num

/-- C7 amended: for `theta = π/2` and `L = t > 0`, the needle crosses
for every center `y`: the vertical needle of length `t` always reaches
a line spaced `t` apart, because `min (y mod t) (t - y mod t) ≤ t/2`
and the tie counts as a crossing. -/
theorem pi_div_two_always_crosses (t y : ℝ) (xlim ylim : ℝ × ℝ) (ux : ℝ)
    (ht : 0 < t) :
    (drop_one_needle t t xlim ylim ux y (Real.pi / 2)).crosses := by
  show (t / 2) * Real.sin (Real.pi / 2) ≥ min (pymod y t) (t - pymod y t)
  rw [Real.sin_pi_div_two, mul_one]
  rcases le_total (pymod y t) (t - pymod y t) with h | h
  · calc min (pymod y t) (t - pymod y t) ≤ pymod y t := min_le_left _ _
      _ ≤ t / 2 := by linarith
  · calc min (pymod y t) (t - pymod y t) ≤ t - pymod y t := min_le_right _ _
      _ ≤ t / 2 := by linarith

theorem pi_div_two_always_crosses_witness :
    0 < (1 : ℝ) ∧
    (drop_one_needle 1 1 (-3, 3) (-3, 3) 0 0 (Real.pi / 2)).crosses :=
  ⟨by norm_num, pi_div_two_always_crosses 1 0 (-3, 3) (-3, 3) 0 (by norm_num)⟩

/-- A point lies in the rectangular viewing region given by `xlim` and
`ylim`. -/
def inRegion (xlim ylim : ℝ × ℝ) (p : ℝ × ℝ) : Prop :=
  xlim.1 ≤ p.1 ∧ p.1 ≤ xlim.2 ∧ ylim.1 ≤ p.2 ∧ p.2 ≤ ylim.2

/-- C8: for every `0 < L ≤ t` and bounding region at least `L` wide and
`t` tall, a needle whose center is drawn from the padded ranges
`[xmin + L/2, xmax - L/2] × [ymin + t/2, ymax - t/2]` has its center in
those ranges and both drawn endpoints inside the region: the needle
never exits the visible plane. -/
theorem needle_stays_inside (L t : ℝ) (xlim ylim : ℝ × ℝ) (ux uy utheta : ℝ)
    (hL : 0 < L) (hLt : L ≤ t)
    (hxw : xlim.2 - xlim.1 ≥ L) (hyw : ylim.2 - ylim.1 ≥ t)
    (hux1 : xlim.1 + L / 2 ≤ ux) (hux2 : ux ≤ xlim.2 - L / 2)
    (huy1 : ylim.1 + t / 2 ≤ uy) (huy2 : uy ≤ ylim.2 - t / 2) :
    (xlim.1 + L / 2 ≤ (drop_one_needle L t xlim ylim ux uy utheta).x ∧
      (drop_one_needle L t xlim ylim ux uy utheta).x ≤ xlim.2 - L / 2 ∧
      ylim.1 + t / 2 ≤ (drop_one_needle L t xlim ylim ux uy utheta).y ∧
      (drop_one_needle L t xlim ylim ux uy utheta).y ≤ ylim.2 - t / 2) ∧
    inRegion xlim ylim
      (draw_needle_segment (drop_one_needle L t xlim ylim ux uy utheta) L).1 ∧
    inRegion xlim ylim
      (draw_needle_segment (drop_one_needle L t xlim ylim ux uy utheta) L).2 := by
  have hc1 : Real.cos utheta ≤ 1 := Real.cos_le_one _
  have hc2 : -1 ≤ Real.cos utheta := Real.neg_one_le_cos _
  have hs1 : Real.sin utheta ≤ 1 := Real.sin_le_one _
  have hs2 : -1 ≤ Real.sin utheta := Real.neg_one_le_sin _
  have hL2 : (0 : ℝ) ≤ L / 2 := by linarith
  have h1 : (L / 2) * Real.cos utheta ≤ L / 2 := by nlinarith
  have h2 : -(L / 2) ≤ (L / 2) * Real.cos utheta := by nlinarith
  have h3 : (L / 2) * Real.sin utheta ≤ L / 2 := by nlinarith
  have h4 : -(L / 2) ≤ (L / 2) * Real.sin utheta := by nlinarith
  refine ⟨⟨hux1, hux2, huy1, huy2⟩, ⟨?_, ?_, ?_, ?_⟩, ⟨?_, ?_, ?_, ?_⟩⟩ <;>
    simp only [drop_one_needle, draw_needle_segment] <;> linarith

theorem needle_stays_inside_witness :
    (0 < (1 : ℝ) ∧ (1 : ℝ) ≤ 1 ∧
      ((-3, 3) : ℝ × ℝ).2 - ((-3, 3) : ℝ × ℝ).1 ≥ 1 ∧
      ((-3, 3) : ℝ × ℝ).1 + 1 / 2 ≤ 0 ∧ (0 : ℝ) ≤ ((-3, 3) : ℝ × ℝ).2 - 1 / 2) ∧
    ((((-3, 3) : ℝ × ℝ).1 + 1 / 2 ≤ (drop_one_needle 1 1 (-3, 3) (-3, 3) 0 0 0).x ∧
      (drop_one_needle 1 1 (-3, 3) (-3, 3) 0 0 0).x ≤ ((-3, 3) : ℝ × ℝ).2 - 1 / 2 ∧
      ((-3, 3) : ℝ × ℝ).1 + 1 / 2 ≤ (drop_one_needle 1 1 (-3, 3) (-3, 3) 0 0 0).y ∧
      (drop_one_needle 1 1 (-3, 3) (-3, 3) 0 0 0).y ≤ ((-3, 3) : ℝ × ℝ).2 - 1 / 2) ∧
    inRegion (-3, 3) (-3, 3)
      (draw_needle_segment (drop_one_needle 1 1 (-3, 3) (-3, 3) 0 0 0) 1).1 ∧
    inRegion (-3, 3) (-3, 3)
      (draw_needle_segment (drop_one_needle 1 1 (-3, 3) (-3, 3) 0 0 0) 1).2) :=
  ⟨⟨by norm_num, by norm_num, by norm_num, by norm_num, by norm_num⟩,
    needle_stays_inside 1 1 (-3, 3) (-3, 3) 0 0 0 (by norm_num) (by norm_num)
      (by norm_num) (by norm_num) (by norm_num) (by norm_num) (by norm_num)
      (by norm_num)⟩

/-- C9 counterexample: the prompt input "-5" parses as the integer
`-5` (Python `int()` accepts a sign), which is not positive, yet the
program uses `N = -5` as-is, with no fallback to 300 and no
diagnostic — refuting "non-positive input substitutes the default". -/
theorem read_N_negative_counterexample :
    read_N "-5" = (-5, false) ∧ (-5 : ℤ) < 0 ∧ (-5 : ℤ) ≠ 300 := by
  refine ⟨by decide, by decide, by decide⟩

/-- C9 amended: if the trial count supplied at the prompt is unparsable
as an integer (Python `int()` raises), the program substitutes the
default `N = 300` and takes the diagnostic path; a string that parses
as an integer — even a non-positive one — is used as-is.  The ASCII
hypothesis restricts the statement to the fragment where `pyIntParse`
coincides exactly with CPython's `int()` (non-ASCII decimal digits,
which `int()` also accepts, are outside the model). -/
theorem read_N_fallback (s : String) (hascii : isAsciiStr s = true)
    (h : pyIntParse s = none) : read_N s = (300, true) := by
  unfold read_N
  rw [h]

theorem read_N_fallback_witness :
    isAsciiStr "abc" = true ∧ pyIntParse "abc" = none ∧ read_N "abc" = (300, true) :=
  ⟨by decide, by decide, read_N_fallback "abc" (by decide) (by decide)⟩

/-- C10: the sampler performs no `L ≤ t` validation: called directly
with `L > t` it still returns the needle built from the draws with the
usual crossing rule; the `L > t` check is enforced only at the entry of
`run_simulation`, which rejects such a configuration. -/
theorem sampler_no_validation (L t : ℝ) (xlim ylim : ℝ × ℝ)
    (ux uy utheta : ℝ) [Decidable (L > t)] (N : ℕ) (outcomes : ℕ → Bool)
    (h : L > t) :
    (drop_one_needle L t xlim ylim ux uy utheta).x = ux ∧
    (drop_one_needle L t xlim ylim ux uy utheta).y = uy ∧
    (drop_one_needle L t xlim ylim ux uy utheta).theta = utheta ∧
    ((drop_one_needle L t xlim ylim ux uy utheta).crosses ↔
      (L / 2) * Real.sin utheta ≥ min (pymod uy t) (t - pymod uy t)) ∧
    run_simulation N L t outcomes = Except.error "Requires L <= t" := by
  refine ⟨rfl, rfl, rfl, Iff.rfl, ?_⟩
  unfold run_simulation
  rw [if_pos h]

theorem sampler_no_validation_witness :
    (2 : ℝ) > 1 ∧
    ((drop_one_needle 2 1 (-3, 3) (-3, 3) 0 0 0).x = 0 ∧
     (drop_one_needle 2 1 (-3, 3) (-3, 3) 0 0 0).y = 0 ∧
     (drop_one_needle 2 1 (-3, 3) (-3, 3) 0 0 0).theta = 0 ∧
     ((drop_one_needle 2 1 (-3, 3) (-3, 3) 0 0 0).crosses ↔
       ((2 : ℝ) / 2) * Real.sin 0 ≥ min (pymod 0 1) (1 - pymod 0 1)) ∧
     run_simulation 5 2 1 allFalse = Except.error "Requires L <= t") :=
  ⟨by norm_num,
    sampler_no_validation 2 1 (-3, 3) (-3, 3) 0 0 0 5 allFalse (by norm_num)⟩

end Buffon
